import Mathlib

/-!
Shallow embedding of `src/app/__init__.py` (GTFS Poznań realtime backend).

The module holds a global `GTFSDataStore`, a cached file fetcher
(`fetch_file`), a refresh pipeline (`fetch_and_process_data`) that fetches
two realtime protobuf feeds and a static GTFS zip, parses them, fuses them
into per-vehicle records and writes the results into the store field by
field, and a read endpoint (`get_vehicle_positions`).

External effects (network, filesystem content, clock, parse outcomes of the
downloaded bytes) are resolved by an `Env` record of per-run inputs; the
filesystem cache is modelled by the modification times of the three cached
files; Python dicts are modelled by insertion-ordered association lists
with overwriting update, and Python's stable `list.sort(key=...)` by a
stable insertion sort on the key.
-/

namespace BimbaGo

/-- Python `d.get(k)` on a string-keyed dict: the value at the unique
occurrence of `k`, if any. -/
def dictGet? {α : Type} (m : List (String × α)) (k : String) : Option α :=
  (m.find? (fun p => p.1 == k)).map (fun p => p.2)

/-- Python `d[k] = v`: overwrite the existing entry in place, otherwise
append a new entry (dicts preserve insertion order). -/
def dictSet {α : Type} (m : List (String × α)) (k : String) (v : α) : List (String × α) :=
  if m.any (fun p => p.1 == k) then
    m.map (fun p => if p.1 == k then (k, v) else p)
  else m ++ [(k, v)]

/-- A row of `shapes.txt` after the per-field conversions
`float(shape['shape_pt_lat'])`, `float(shape['shape_pt_lon'])`,
`int(shape['shape_pt_sequence'])`. -/
structure ShapeRow where
  shape_id : String
  shape_pt_lat : ℚ
  shape_pt_lon : ℚ
  shape_pt_sequence : ℤ
deriving DecidableEq

/-- A row of `trips.txt`: the two columns the pipeline reads. `none` models
the column being absent from that row's dict, in which case the lookups
`trip['trip_id']` / `trip['shape_id']` at line 202 raise `KeyError`. -/
structure TripRow where
  trip_id : Option String
  shape_id : Option String
deriving DecidableEq

/-- Pydantic `ShapePoint` model: `{lat, lon, seq}`. -/
structure ShapePoint where
  lat : ℚ
  lon : ℚ
  seq : ℤ
deriving DecidableEq

/-- Pydantic `Position` model. -/
structure Position where
  latitude : ℚ
  longitude : ℚ
deriving DecidableEq

/-- Pydantic `VehicleData` model: one fused per-vehicle record. -/
structure VehicleData where
  vehicle_id : String
  route_id : String
  trip_id : String
  position : Position
  delay_seconds : Option ℤ := none
  shape_id : Option String := none
  shape_points : List ShapePoint := []
deriving DecidableEq

/-- GTFS-RT `TripDescriptor` (the fields the pipeline reads). -/
structure TripDescriptor where
  trip_id : String
  route_id : String
deriving DecidableEq

/-- GTFS-RT `VehicleDescriptor` (the field the pipeline reads). -/
structure VehicleDescriptor where
  id : String
deriving DecidableEq

/-- GTFS-RT `StopTimeEvent`: an optional `delay`; `none` models
`HasField('delay') == False`. -/
structure StopTimeEvent where
  delay : Option ℤ
deriving DecidableEq

/-- GTFS-RT `StopTimeUpdate`: optional `arrival` and `departure` events. -/
structure StopTimeUpdate where
  arrival : Option StopTimeEvent
  departure : Option StopTimeEvent
deriving DecidableEq

/-- GTFS-RT `TripUpdate`: a trip descriptor and the stop-time update list. -/
structure TripUpdate where
  trip : TripDescriptor
  stop_time_update : List StopTimeUpdate
deriving DecidableEq

/-- A trip-updates feed entity; `trip_update = none` models
`HasField('trip_update') == False`. -/
structure TripUpdateEntity where
  trip_update : Option TripUpdate
deriving DecidableEq

/-- GTFS-RT `VehiclePosition` payload (`entity.vehicle`). -/
structure VehiclePayload where
  trip : TripDescriptor
  vehicle : VehicleDescriptor
  position : Position
deriving DecidableEq

/-- A vehicle-positions feed entity; `vehicle = none` models
`HasField('vehicle') == False`. -/
structure VehicleEntity where
  vehicle : Option VehiclePayload
deriving DecidableEq

/-- The global `GTFSDataStore` object: six independently assigned fields. -/
structure GTFSDataStore where
  shapes_dict : List (String × List ShapePoint) := []
  trips : List TripRow := []
  trip_shape_map : List (String × String) := []
  trip_delays : List (String × ℤ) := []
  vehicle_positions : List VehicleData := []
  last_updated : Option ℤ := none
deriving DecidableEq

/-- What a single `fetch_file` call did. -/
inductive FetchResult where
  | skipped
  | fetched
  | failed
deriving DecidableEq

/-- `fetch_file(url, filepath, max_age_seconds)`: skip when the file exists
and its age `now - mtime` is below `maxAge`; otherwise perform the network
retrieval, which on success writes the file (its mtime becomes `now`) and on
failure raises without writing. Returns the new file state (its mtime, or
`none` when absent) and what happened. -/
def fetch_file (file : Option ℤ) (now maxAge : ℤ) (netOk : Bool) :
    Option ℤ × FetchResult :=
  match file with
  | some m =>
      if now - m < maxAge then (some m, .skipped)
      else if netOk then (some now, .fetched) else (some m, .failed)
  | none => if netOk then (some now, .fetched) else (none, .failed)

/-- Modification times of the three cached files (`none` = absent). -/
structure FsState where
  vp_file : Option ℤ := none
  tu_file : Option ℤ := none
  zip_file : Option ℤ := none
deriving DecidableEq

/-- Outcome of `zipfile.ZipFile(...).extractall(...)` on the cached zip. -/
inductive UnzipOutcome where
  | ok
  | badZip
  | otherError
deriving DecidableEq

/-- The external inputs a single refresh run resolves against: the clock,
the three network outcomes, the unzip outcome, and the parse outcomes of
the cached artifacts (`Except.error` models the corresponding load
function raising). -/
structure Env where
  now : ℤ
  vpNetOk : Bool
  tuNetOk : Bool
  zipNetOk : Bool
  unzip : UnzipOutcome
  shapesCsv : Except Unit (List ShapeRow)
  tripsCsv : Except Unit (List TripRow)
  vehicleFeed : Except Unit (List VehicleEntity)
  tripUpdateFeed : Except Unit (List TripUpdateEntity)

/-- Group the shape rows by `shape_id`, appending each point in row order
(lines 181-190 of the source). -/
def buildShapesDict (rows : List ShapeRow) : List (String × List ShapePoint) :=
  rows.foldl
    (fun m r =>
      match dictGet? m r.shape_id with
      | none => m ++ [(r.shape_id, [⟨r.shape_pt_lat, r.shape_pt_lon, r.shape_pt_sequence⟩])]
      | some pts => dictSet m r.shape_id
          (pts ++ [⟨r.shape_pt_lat, r.shape_pt_lon, r.shape_pt_sequence⟩]))
    []

/-- Insert a point into a list sorted by `seq`, after all points of smaller
or equal `seq` (the insertion step of a stable sort by key). -/
def insertBySeq (p : ShapePoint) : List ShapePoint → List ShapePoint
  | [] => [p]
  | q :: rest => if q.seq ≤ p.seq then q :: insertBySeq p rest else p :: q :: rest

/-- Python `pts.sort(key=lambda x: x['seq'])`: stable sort by `seq`. -/
def sortBySeq (l : List ShapePoint) : List ShapePoint :=
  l.foldl (fun acc p => insertBySeq p acc) []

/-- Sort every shape's point list by `seq` (lines 193-198 of the source). -/
def sortShapes (m : List (String × List ShapePoint)) : List (String × List ShapePoint) :=
  m.map (fun p => (p.1, sortBySeq p.2))

/-- The row-by-row evaluation of the comprehension
`{trip['trip_id']: trip['shape_id'] for trip in trips}`: raises `KeyError`
at the first row missing either column. -/
def buildTripShapeMapFrom (m : List (String × String)) :
    List TripRow → Except Unit (List (String × String))
  | [] => .ok m
  | t :: rest =>
    match t.trip_id, t.shape_id with
    | some tid, some sid => buildTripShapeMapFrom (dictSet m tid sid) rest
    | _, _ => .error ()

/-- `{trip['trip_id']: trip['shape_id'] for trip in trips}` (line 202): the
comprehension is evaluated in full before `data_store.trip_shape_map` is
assigned, and raises `KeyError` if any row lacks either column. -/
def buildTripShapeMap (trips : List TripRow) : Except Unit (List (String × String)) :=
  buildTripShapeMapFrom [] trips

/-- One iteration of the trip-delays loop (lines 210-222): a delay is
recorded only when the entity has a trip update with a non-empty stop-time
update list whose first entry has an arrival delay, or failing that a
departure delay. -/
def tripDelayStep (m : List (String × ℤ)) (e : TripUpdateEntity) : List (String × ℤ) :=
  match e.trip_update with
  | none => m
  | some tu =>
    match tu.stop_time_update with
    | [] => m
    | stu :: _ =>
      match stu.arrival.bind StopTimeEvent.delay with
      | some d => dictSet m tu.trip.trip_id d
      | none =>
        match stu.departure.bind StopTimeEvent.delay with
        | some d => dictSet m tu.trip.trip_id d
        | none => m

/-- The trip-delays dict built from the trip-updates feed (lines 209-222). -/
def buildTripDelays (entities : List TripUpdateEntity) : List (String × ℤ) :=
  entities.foldl tripDelayStep []

/-- The fused record built for one vehicle payload (lines 229-250): delay
and shape id by `trip_id` lookup (absent is valid), shape points by
`shapes_dict.get(shape_id, [])` — a `None` shape id never occurs as a key
of the string-keyed dict, so it yields the `[]` default. -/
def mkVehicleData (trip_delays : List (String × ℤ)) (trip_shape_map : List (String × String))
    (shapes_dict : List (String × List ShapePoint)) (v : VehiclePayload) : VehicleData :=
  let trip_id := v.trip.trip_id
  let delay := dictGet? trip_delays trip_id
  let shape_id := dictGet? trip_shape_map trip_id
  let shape_points : List ShapePoint :=
    match shape_id with
    | none => []
    | some sid => (dictGet? shapes_dict sid).getD []
  { vehicle_id := v.vehicle.id
    route_id := v.trip.route_id
    trip_id := trip_id
    position := v.position
    delay_seconds := delay
    shape_id := shape_id
    shape_points := shape_points }

/-- The vehicle-processing loop (lines 226-250): one record per entity that
has a vehicle payload, in feed order; other entities are skipped. -/
def fuseVehicles (trip_delays : List (String × ℤ)) (trip_shape_map : List (String × String))
    (shapes_dict : List (String × List ShapePoint)) :
    List VehicleEntity → List VehicleData
  | [] => []
  | e :: rest =>
    match e.vehicle with
    | none => fuseVehicles trip_delays trip_shape_map shapes_dict rest
    | some v =>
        mkVehicleData trip_delays trip_shape_map shapes_dict v ::
          fuseVehicles trip_delays trip_shape_map shapes_dict rest

/-- Result of one refresh run: whether it completed, the cache filesystem
state, the data store state, and whether the zip stage performed a network
retrieval. -/
structure RunOutcome where
  success : Bool
  fs : FsState
  ds : GTFSDataStore
  zip_retrieved : Bool
deriving DecidableEq

/-- `fetch_and_process_data` (lines 150-260), as a function of the run's
external inputs and the filesystem and store states. Mutations happen in
source order: a `BadZipFile` removes the cached zip before raising (line
170); the static fields `shapes_dict`, `trips`, `trip_shape_map` are
assigned (lines 195-202) before the realtime feeds are loaded (lines
205-206); `trip_delays`, `vehicle_positions` and `last_updated` are
assigned afterwards (lines 223, 251, 252). The trip-to-shape comprehension
(line 202) runs after `shapes_dict` and `trips` are assigned and can raise
`KeyError` before `trip_shape_map` is assigned. Any raise aborts the run
with the states as mutated so far. -/
def fetch_and_process_data (env : Env) (fs : FsState) (ds : GTFSDataStore) : RunOutcome :=
  let v := fetch_file fs.vp_file env.now 10 env.vpNetOk
  let fs := { fs with vp_file := v.1 }
  if v.2 = .failed then ⟨false, fs, ds, false⟩ else
  let t := fetch_file fs.tu_file env.now 10 env.tuNetOk
  let fs := { fs with tu_file := t.1 }
  if t.2 = .failed then ⟨false, fs, ds, false⟩ else
  let z := fetch_file fs.zip_file env.now 86400 env.zipNetOk
  let fs := { fs with zip_file := z.1 }
  let zr : Bool := decide (z.2 = FetchResult.fetched)
  if z.2 = .failed then ⟨false, fs, ds, false⟩ else
  match env.unzip with
  | .badZip => ⟨false, { fs with zip_file := none }, ds, zr⟩
  | .otherError => ⟨false, fs, ds, zr⟩
  | .ok =>
    match env.shapesCsv with
    | .error _ => ⟨false, fs, ds, zr⟩
    | .ok shapeRows =>
      match env.tripsCsv with
      | .error _ => ⟨false, fs, ds, zr⟩
      | .ok tripRows =>
        let ds := { ds with shapes_dict := sortShapes (buildShapesDict shapeRows) }
        let ds := { ds with trips := tripRows }
        match buildTripShapeMap tripRows with
        | .error _ => ⟨false, fs, ds, zr⟩
        | .ok tsm =>
          let ds := { ds with trip_shape_map := tsm }
          match env.vehicleFeed with
          | .error _ => ⟨false, fs, ds, zr⟩
          | .ok vehicleEntities =>
            match env.tripUpdateFeed with
            | .error _ => ⟨false, fs, ds, zr⟩
            | .ok tripUpdateEntities =>
              let ds := { ds with trip_delays := buildTripDelays tripUpdateEntities }
              let ds := { ds with
                vehicle_positions :=
                  fuseVehicles ds.trip_delays ds.trip_shape_map ds.shapes_dict vehicleEntities }
              let ds := { ds with last_updated := some env.now }
              ⟨true, fs, ds, zr⟩

/-- The `/vehicles` endpoint (lines 281-288): raises 404 when the stored
vehicle list is empty (`not data_store.vehicle_positions`), otherwise
returns the list. -/
def get_vehicle_positions (ds : GTFSDataStore) : Except Unit (List VehicleData) :=
  if ds.vehicle_positions.isEmpty then .error () else .ok ds.vehicle_positions

/-- Spec-side rule (from the spec's words, for comparison with the code):
a trip update's delay is "taken only from the first stop-time update entry
— preferring an arrival delay, falling back to departure delay if arrival
delay is absent, else no delay recorded for that trip". -/
def spec_firstStopDelay (tu : TripUpdate) : Option ℤ :=
  match tu.stop_time_update.head? with
  | none => none
  | some stu =>
    match stu.arrival.bind StopTimeEvent.delay with
    | some d => some d
    | none => stu.departure.bind StopTimeEvent.delay

/-- Spec-side processing of one trip-update entity: record the first-stop
delay for the entity's trip, if any (later entities overwrite earlier). -/
def spec_tripDelayStep (m : List (String × ℤ)) (e : TripUpdateEntity) : List (String × ℤ) :=
  match e.trip_update with
  | none => m
  | some tu =>
    match spec_firstStopDelay tu with
    | some d => dictSet m tu.trip.trip_id d
    | none => m

/-- Spec-side trip-delay map: fold the spec-side rule over the feed. -/
def spec_buildTripDelays (entities : List TripUpdateEntity) : List (String × ℤ) :=
  entities.foldl spec_tripDelayStep []

/-- Non-decreasing order of shape points by `seq`. -/
def seqLE (a b : ShapePoint) : Prop := a.seq ≤ b.seq

/-- Example shape rows: one shape with out-of-order sequences plus a second
shape. -/
def exShapeRows : List ShapeRow :=
  [⟨"s1", 1, 2, 5⟩, ⟨"s1", 3, 4, 1⟩, ⟨"s2", 5, 6, 0⟩]

/-- Example trip rows with both columns present. -/
def exTripRows : List TripRow := [⟨some "trip-1", some "s1"⟩]

/-- Example environment: every stage succeeds, the vehicle feed is empty. -/
def exEnvOk : Env :=
  { now := 100, vpNetOk := true, tuNetOk := true, zipNetOk := true,
    unzip := .ok, shapesCsv := .ok exShapeRows, tripsCsv := .ok exTripRows,
    vehicleFeed := .ok [], tripUpdateFeed := .ok [] }

/-- Example environment: everything succeeds up to the static load, then
parsing the vehicle-positions feed raises. -/
def exEnvFeedFail : Env := { exEnvOk with vehicleFeed := .error () }

/-- Example environment: the cached zip turns out corrupt. -/
def exEnvBadZip : Env := { exEnvOk with unzip := .badZip }

/-- Example environment: the trips CSV loads, but its single row lacks the
`shape_id` column, so the trip-to-shape comprehension raises `KeyError`
after `shapes_dict` and `trips` are assigned. -/
def exEnvTripKeyErr : Env :=
  { exEnvOk with tripsCsv := .ok [⟨some "trip-1", none⟩] }

/-- Example trip-update entity: first (and only) stop-time update has no
arrival event and a departure delay of 42. -/
def ex42Entity : TripUpdateEntity :=
  ⟨some ⟨⟨"trip-1", "r1"⟩, [⟨none, some ⟨some 42⟩⟩]⟩⟩

/-- Example vehicle payload whose trip has no trip-to-shape mapping entry
in the empty map. -/
def exVP : VehiclePayload :=
  ⟨⟨"trip-9", "r9"⟩, ⟨"veh-9"⟩, ⟨7, 8⟩⟩

/-- Example vehicle payload for the dangling-shape case. -/
def exVPDangling : VehiclePayload :=
  ⟨⟨"trip-2", "r2"⟩, ⟨"veh-2"⟩, ⟨9, 10⟩⟩

theorem mem_insertBySeq {p q : ShapePoint} {l : List ShapePoint}
    (h : q ∈ insertBySeq p l) : q = p ∨ q ∈ l := by
  induction l with
  | nil => simpa [insertBySeq] using h
  | cons r rest ih =>
    rw [insertBySeq] at h
    by_cases hr : r.seq ≤ p.seq
    · rw [if_pos hr] at h
      rcases List.mem_cons.mp h with rfl | h'
      · exact Or.inr (List.mem_cons_self _ _)
      · rcases ih h' with rfl | h''
        · exact Or.inl rfl
        · exact Or.inr (List.mem_cons_of_mem _ h'')
    · rw [if_neg hr] at h
      rcases List.mem_cons.mp h with rfl | h'
      · exact Or.inl rfl
      · exact Or.inr h'

theorem sorted_insertBySeq {p : ShapePoint} {l : List ShapePoint}
    (h : l.Sorted seqLE) : (insertBySeq p l).Sorted seqLE := by
  induction l with
  | nil => simp [insertBySeq, List.sorted_singleton]
  | cons q rest ih =>
    rw [List.sorted_cons] at h
    obtain ⟨hq, hrest⟩ := h
    rw [insertBySeq]
    by_cases hle : q.seq ≤ p.seq
    · rw [if_pos hle, List.sorted_cons]
      refine ⟨?_, ih hrest⟩
      intro b hb
      rcases mem_insertBySeq hb with rfl | hbl
      · exact hle
      · exact hq b hbl
    · rw [if_neg hle, List.sorted_cons]
      refine ⟨?_, List.sorted_cons.mpr ⟨hq, hrest⟩⟩
      intro b hb
      rcases List.mem_cons.mp hb with rfl | hbl
      · exact le_of_lt (lt_of_not_le hle)
      · exact le_trans (le_of_lt (lt_of_not_le hle)) (hq b hbl)

theorem sorted_sortBySeq (l : List ShapePoint) : (sortBySeq l).Sorted seqLE := by
  have aux : ∀ (l acc : List ShapePoint), acc.Sorted seqLE →
      (l.foldl (fun acc p => insertBySeq p acc) acc).Sorted seqLE := by
    intro l
    induction l with
    | nil => intro acc h; exact h
    | cons p rest ih => intro acc h; exact ih _ (sorted_insertBySeq h)
  exact aux l [] List.sorted_nil

theorem tripDelayStep_eq_spec (m : List (String × ℤ)) (e : TripUpdateEntity) :
    tripDelayStep m e = spec_tripDelayStep m e := by
  cases e with
  | mk tup =>
    cases tup with
    | none => rfl
    | some tu =>
      cases htu : tu.stop_time_update with
      | nil => simp [tripDelayStep, spec_tripDelayStep, spec_firstStopDelay, htu]
      | cons stu rest =>
        cases ha : stu.arrival.bind StopTimeEvent.delay with
        | some d =>
          simp [tripDelayStep, spec_tripDelayStep, spec_firstStopDelay, htu, ha]
        | none =>
          cases hd : stu.departure.bind StopTimeEvent.delay <;>
            simp [tripDelayStep, spec_tripDelayStep, spec_firstStopDelay, htu, ha, hd]

theorem foldl_tripDelayStep_eq_spec (l : List TripUpdateEntity) :
    ∀ m, l.foldl tripDelayStep m = l.foldl spec_tripDelayStep m := by
  induction l with
  | nil => intro m; rfl
  | cons e rest ih =>
    intro m
    rw [List.foldl_cons, List.foldl_cons, tripDelayStep_eq_spec, ih]

theorem mem_fuseVehicles {td : List (String × ℤ)} {tsm : List (String × String)}
    {sd : List (String × List ShapePoint)} {entities : List VehicleEntity} {r : VehicleData}
    (h : r ∈ fuseVehicles td tsm sd entities) :
    ∃ e ∈ entities, ∃ v, e.vehicle = some v ∧ r = mkVehicleData td tsm sd v := by
  induction entities with
  | nil => simp [fuseVehicles] at h
  | cons e rest ih =>
    rw [fuseVehicles] at h
    cases he : e.vehicle with
    | none =>
      rw [he] at h
      rcases ih h with ⟨e', he', v, hv, hr⟩
      exact ⟨e', List.mem_cons_of_mem _ he', v, hv, hr⟩
    | some v =>
      rw [he] at h
      rcases List.mem_cons.mp h with rfl | h'
      · exact ⟨e, List.mem_cons_self _ _, v, he, rfl⟩
      · rcases ih h' with ⟨e', he', v', hv', hr⟩
        exact ⟨e', List.mem_cons_of_mem _ he', v', hv', hr⟩

theorem fuseVehicles_mem {td : List (String × ℤ)} {tsm : List (String × String)}
    {sd : List (String × List ShapePoint)} {entities : List VehicleEntity}
    {e : VehicleEntity} {v : VehiclePayload}
    (he : e ∈ entities) (hv : e.vehicle = some v) :
    mkVehicleData td tsm sd v ∈ fuseVehicles td tsm sd entities := by
  induction entities with
  | nil => cases he
  | cons e' rest ih =>
    rw [fuseVehicles]
    rcases List.mem_cons.mp he with rfl | hmem
    · rw [hv]; exact List.mem_cons_self _ _
    · cases h' : e'.vehicle with
      | none => exact ih hmem
      | some w => exact List.mem_cons_of_mem _ (ih hmem)

/-- Claim C4: the delay map built from the trip-updates feed agrees with the
spec's rule — the delay of a trip-update entity is taken only from the first
stop-time update entry, preferring the arrival delay, falling back to the
departure delay, else recording nothing; in particular an entity with only a
departure delay of 42 yields delay 42 for its trip. -/
theorem C4_first_stop_delay_rule :
    (∀ entities : List TripUpdateEntity,
      buildTripDelays entities = spec_buildTripDelays entities) ∧
    dictGet? (buildTripDelays [ex42Entity]) "trip-1" = some 42 := by
  constructor
  · intro entities
    exact foldl_tripDelayStep_eq_spec entities []
  · decide

/-- Claim C5: every record fused from a vehicle entity whose trip has no
entry in the trip-to-shape map has an absent `shape_id` and an empty
`shape_points` list. -/
theorem C5_unmapped_trip_empty_shape (td : List (String × ℤ))
    (tsm : List (String × String)) (sd : List (String × List ShapePoint))
    (entities : List VehicleEntity) (r : VehicleData)
    (hr : r ∈ fuseVehicles td tsm sd entities)
    (hm : dictGet? tsm r.trip_id = none) :
    r.shape_id = none ∧ r.shape_points = [] := by
  rcases mem_fuseVehicles hr with ⟨e, _, v, hv, rfl⟩
  have hm' : dictGet? tsm v.trip.trip_id = none := hm
  exact ⟨by simp [mkVehicleData, hm'], by simp [mkVehicleData, hm']⟩

/-- Claim C5 witness: a concrete vehicle entity with an unmapped trip fuses
to a record with no shape id and no shape points. -/
theorem C5_witness :
    (mkVehicleData [] [] [] exVP).shape_id = none ∧
    (mkVehicleData [] [] [] exVP).shape_points = [] :=
  C5_unmapped_trip_empty_shape [] [] [] [⟨some exVP⟩] (mkVehicleData [] [] [] exVP)
    (by simp [fuseVehicles]) (by decide)

/-- Claim C6: every shape stored in the index built by the static loader has
its points in non-decreasing `seq` order. -/
theorem C6_shape_index_sorted (rows : List ShapeRow) (sid : String)
    (pts : List ShapePoint)
    (h : dictGet? (sortShapes (buildShapesDict rows)) sid = some pts) :
    pts.Sorted seqLE := by
  rw [dictGet?] at h
  cases hf : (sortShapes (buildShapesDict rows)).find? (fun p => p.1 == sid) with
  | none => rw [hf] at h; simp at h
  | some p =>
    rw [hf] at h
    simp only [Option.map_some', Option.some.injEq] at h
    have hp : p ∈ sortShapes (buildShapesDict rows) := List.mem_of_find?_eq_some hf
    rw [sortShapes] at hp
    rcases List.mem_map.mp hp with ⟨q, _, hq⟩
    rw [← h, ← hq]
    exact sorted_sortBySeq q.2

/-- Claim C6 witness: the concrete shape rows with out-of-order sequences
load into a sorted point list. -/
theorem C6_witness :
    dictGet? (sortShapes (buildShapesDict exShapeRows)) "s1"
      = some [⟨3, 4, 1⟩, ⟨1, 2, 5⟩] ∧
    List.Sorted seqLE [⟨3, 4, 1⟩, ⟨1, 2, 5⟩] :=
  ⟨by decide,
   C6_shape_index_sorted exShapeRows "s1" [⟨3, 4, 1⟩, ⟨1, 2, 5⟩] (by decide)⟩

/-- Claim C10: a vehicle entity whose trip maps to a shape id that is absent
from the shape index still fuses (without any error) to a record carrying
that shape id and an empty `shape_points` list. -/
theorem C10_dangling_shape_id (td : List (String × ℤ))
    (tsm : List (String × String)) (sd : List (String × List ShapePoint))
    (entities : List VehicleEntity) (e : VehicleEntity) (v : VehiclePayload)
    (sid : String)
    (he : e ∈ entities) (hv : e.vehicle = some v)
    (hsid : dictGet? tsm v.trip.trip_id = some sid)
    (hsd : dictGet? sd sid = none) :
    mkVehicleData td tsm sd v ∈ fuseVehicles td tsm sd entities ∧
    (mkVehicleData td tsm sd v).shape_id = some sid ∧
    (mkVehicleData td tsm sd v).shape_points = [] := by
  refine ⟨fuseVehicles_mem he hv, ?_, ?_⟩
  · simp [mkVehicleData, hsid]
  · simp [mkVehicleData, hsid, hsd]

/-- Claim C10 witness: a concrete vehicle whose trip maps to the unknown
shape id `s9` fuses to a record with `shape_id = some "s9"` and no points. -/
theorem C10_witness :
    mkVehicleData [] [("trip-2", "s9")] [] exVPDangling
      ∈ fuseVehicles [] [("trip-2", "s9")] [] [⟨some exVPDangling⟩] ∧
    (mkVehicleData [] [("trip-2", "s9")] [] exVPDangling).shape_id = some "s9" ∧
    (mkVehicleData [] [("trip-2", "s9")] [] exVPDangling).shape_points = [] :=
  C10_dangling_shape_id [] [("trip-2", "s9")] [] [⟨some exVPDangling⟩]
    ⟨some exVPDangling⟩ exVPDangling "s9" (List.mem_cons_self _ _) rfl
    (by decide) (by decide)

/-- Claim C3 counterexample: a refresh run in which every stage succeeds but
the vehicle feed contains no vehicles completes successfully and sets
`last_updated`, yet a read afterwards still fails with the no-data error —
refuting "after any successful refresh every read returns the snapshot". -/
theorem C3_counterexample :
    (fetch_and_process_data exEnvOk {} {}).success = true ∧
    (fetch_and_process_data exEnvOk {} {}).ds.last_updated = some 100 ∧
    get_vehicle_positions (fetch_and_process_data exEnvOk {} {}).ds
      = Except.error () :=
  ⟨by decide, by decide, rfl⟩

/-- Claim C3 (amended): a vehicle read fails with the no-data error if and
only if the stored vehicle list is empty — which holds before the first
successful refresh, but also after a successful refresh whose fusion
produced zero records. -/
theorem C3_amended_read_fails_iff_empty (ds : GTFSDataStore) :
    get_vehicle_positions ds = Except.error () ↔ ds.vehicle_positions = [] := by
  rw [get_vehicle_positions]
  cases hl : ds.vehicle_positions with
  | nil => simp
  | cons a l => simp

/-- Claim C7: a `fetch_file` call skips the network exactly when the file
exists and its age is below `maxAge`; a call that does not retrieve leaves
the file untouched; and two consecutive calls within `maxAge`, starting
from an absent file, perform exactly one retrieval (the first). -/
theorem C7_fetch_caching :
    (∀ (file : Option ℤ) (now maxAge : ℤ) (netOk : Bool),
      ((fetch_file file now maxAge netOk).2 = .skipped ↔
        ∃ m, file = some m ∧ now - m < maxAge) ∧
      ((fetch_file file now maxAge netOk).2 ≠ .fetched →
        (fetch_file file now maxAge netOk).1 = file)) ∧
    (∀ t0 t1 maxAge : ℤ, t1 - t0 < maxAge →
      (fetch_file none t0 maxAge true).2 = .fetched ∧
      (fetch_file (fetch_file none t0 maxAge true).1 t1 maxAge true).2 = .skipped) := by
  constructor
  · intro file now maxAge netOk
    constructor
    · cases file with
      | none => cases netOk <;> simp [fetch_file]
      | some m =>
        by_cases h : now - m < maxAge
        · simp [fetch_file, h]
        · cases netOk <;> simp [fetch_file, h]
    · cases file with
      | none => cases netOk <;> simp [fetch_file]
      | some m =>
        by_cases h : now - m < maxAge
        · simp [fetch_file, h]
        · cases netOk <;> simp [fetch_file, h]
  · intro t0 t1 maxAge h
    exact ⟨by simp [fetch_file], by simp [fetch_file, h]⟩

/-- Claim C7 witness: from an absent file, a call at time 0 retrieves and a
second call at time 5 with max age 10 is skipped. -/
theorem C7_witness :
    (fetch_file none 0 10 true).2 = FetchResult.fetched ∧
    (fetch_file (fetch_file none 0 10 true).1 5 10 true).2 = FetchResult.skipped :=
  C7_fetch_caching.2 0 5 10 (by decide)

/-- Claim C1 counterexample: a run in which fetching, unzipping and the
static CSV loads succeed but parsing the vehicle-positions feed raises
leaves the store different from its pre-run state (the static fields were
already overwritten), refuting "the refresh mutates nothing on failure". -/
theorem C1_counterexample :
    (fetch_and_process_data exEnvFeedFail {} {}).success = false ∧
    (fetch_and_process_data exEnvFeedFail {} {}).ds ≠ ({} : GTFSDataStore) := by
  decide

/-- Claim C1 (amended): on a failed run the realtime-derived fields
(`trip_delays`, `vehicle_positions`, `last_updated`) always keep their
pre-run values, and the static fields end in one of three states: all
unchanged (failure at or before the static CSV load); `shapes_dict` and
`trips` overwritten with the new run's data but `trip_shape_map` still old
(the line-202 comprehension raised `KeyError`); or all three overwritten
(failure while loading a realtime feed) — the store can be left partially
updated. -/
theorem C1_amended_failed_run_fields (env : Env) (fs : FsState) (ds : GTFSDataStore)
    (h : (fetch_and_process_data env fs ds).success = false) :
    ((fetch_and_process_data env fs ds).ds.trip_delays = ds.trip_delays ∧
     (fetch_and_process_data env fs ds).ds.vehicle_positions = ds.vehicle_positions ∧
     (fetch_and_process_data env fs ds).ds.last_updated = ds.last_updated) ∧
    ((fetch_and_process_data env fs ds).ds = ds ∨
     (∃ shapeRows tripRows,
       env.shapesCsv = .ok shapeRows ∧ env.tripsCsv = .ok tripRows ∧
       buildTripShapeMap tripRows = .error () ∧
       (fetch_and_process_data env fs ds).ds.shapes_dict
         = sortShapes (buildShapesDict shapeRows) ∧
       (fetch_and_process_data env fs ds).ds.trips = tripRows ∧
       (fetch_and_process_data env fs ds).ds.trip_shape_map = ds.trip_shape_map) ∨
     (∃ shapeRows tripRows tsm,
       env.shapesCsv = .ok shapeRows ∧ env.tripsCsv = .ok tripRows ∧
       buildTripShapeMap tripRows = .ok tsm ∧
       (fetch_and_process_data env fs ds).ds.shapes_dict
         = sortShapes (buildShapesDict shapeRows) ∧
       (fetch_and_process_data env fs ds).ds.trips = tripRows ∧
       (fetch_and_process_data env fs ds).ds.trip_shape_map = tsm)) := by
  by_cases h1 : (fetch_file fs.vp_file env.now 10 env.vpNetOk).2 = FetchResult.failed
  · simp [fetch_and_process_data, h1]
  · by_cases h2 : (fetch_file fs.tu_file env.now 10 env.tuNetOk).2 = FetchResult.failed
    · simp [fetch_and_process_data, h1, h2]
    · by_cases h3 : (fetch_file fs.zip_file env.now 86400 env.zipNetOk).2 = FetchResult.failed
      · simp [fetch_and_process_data, h1, h2, h3]
      · cases hz : env.unzip with
        | badZip => simp [fetch_and_process_data, h1, h2, h3, hz]
        | otherError => simp [fetch_and_process_data, h1, h2, h3, hz]
        | ok =>
          cases hsc : env.shapesCsv with
          | error u => simp [fetch_and_process_data, h1, h2, h3, hz, hsc]
          | ok shapeRows =>
            cases htc : env.tripsCsv with
            | error u => simp [fetch_and_process_data, h1, h2, h3, hz, hsc, htc]
            | ok tripRows =>
              cases hbm : buildTripShapeMap tripRows with
              | error u =>
                cases u
                refine ⟨?_,
                  Or.inr (Or.inl ⟨shapeRows, tripRows, rfl, rfl, hbm, ?_, ?_, ?_⟩)⟩ <;>
                  simp [fetch_and_process_data, h1, h2, h3, hz, hsc, htc, hbm]
              | ok tsm =>
                cases hvf : env.vehicleFeed with
                | error u =>
                  refine ⟨?_,
                    Or.inr (Or.inr ⟨shapeRows, tripRows, tsm, rfl, rfl, hbm, ?_, ?_, ?_⟩)⟩ <;>
                    simp [fetch_and_process_data, h1, h2, h3, hz, hsc, htc, hbm, hvf]
                | ok vehicleEntities =>
                  cases htuf : env.tripUpdateFeed with
                  | error u =>
                    refine ⟨?_,
                      Or.inr (Or.inr ⟨shapeRows, tripRows, tsm, rfl, rfl, hbm, ?_, ?_, ?_⟩)⟩ <;>
                      simp [fetch_and_process_data, h1, h2, h3, hz, hsc, htc, hbm, hvf, htuf]
                  | ok tripUpdateEntities =>
                    exfalso
                    simp [fetch_and_process_data, h1, h2, h3, hz, hsc, htc, hbm, hvf, htuf] at h

/-- Claim C1 witness: at the concrete trips-row `KeyError` failure the
three realtime-derived fields of the store are unchanged. -/
theorem C1_witness :
    (fetch_and_process_data exEnvTripKeyErr {} {}).ds.trip_delays
      = ({} : GTFSDataStore).trip_delays ∧
    (fetch_and_process_data exEnvTripKeyErr {} {}).ds.vehicle_positions
      = ({} : GTFSDataStore).vehicle_positions ∧
    (fetch_and_process_data exEnvTripKeyErr {} {}).ds.last_updated
      = ({} : GTFSDataStore).last_updated :=
  (C1_amended_failed_run_fields exEnvTripKeyErr {} {} (by decide)).1

theorem fetch_file_true_not_failed (file : Option ℤ) (now maxAge : ℤ) :
    (fetch_file file now maxAge true).2 ≠ FetchResult.failed := by
  cases file with
  | none => simp [fetch_file]
  | some m => by_cases h : now - m < maxAge <;> simp [fetch_file, h]

theorem zip_retrieved_spec (env : Env) (fs : FsState) (ds : GTFSDataStore)
    (h1 : (fetch_file fs.vp_file env.now 10 env.vpNetOk).2 ≠ FetchResult.failed)
    (h2 : (fetch_file fs.tu_file env.now 10 env.tuNetOk).2 ≠ FetchResult.failed)
    (h3 : (fetch_file fs.zip_file env.now 86400 env.zipNetOk).2 ≠ FetchResult.failed) :
    (fetch_and_process_data env fs ds).zip_retrieved
      = decide ((fetch_file fs.zip_file env.now 86400 env.zipNetOk).2
          = FetchResult.fetched) := by
  cases hz : env.unzip with
  | badZip => simp [fetch_and_process_data, h1, h2, h3, hz]
  | otherError => simp [fetch_and_process_data, h1, h2, h3, hz]
  | ok =>
    cases hsc : env.shapesCsv with
    | error u => simp [fetch_and_process_data, h1, h2, h3, hz, hsc]
    | ok shapeRows =>
      cases htc : env.tripsCsv with
      | error u => simp [fetch_and_process_data, h1, h2, h3, hz, hsc, htc]
      | ok tripRows =>
        cases hbm : buildTripShapeMap tripRows with
        | error u => simp [fetch_and_process_data, h1, h2, h3, hz, hsc, htc, hbm]
        | ok tsm =>
          cases hvf : env.vehicleFeed with
          | error u => simp [fetch_and_process_data, h1, h2, h3, hz, hsc, htc, hbm, hvf]
          | ok vehicleEntities =>
            cases htuf : env.tripUpdateFeed <;>
              simp [fetch_and_process_data, h1, h2, h3, hz, hsc, htc, hbm, hvf, htuf]

/-- Claim C8: when every fetch succeeds but the cached static archive is
corrupt, the run fails without touching the store, the cached zip file is
removed, and any subsequent run whose fetches succeed performs the zip
network retrieval again. -/
theorem C8_bad_zip_cache_purged (env : Env) (fs : FsState) (ds : GTFSDataStore)
    (hvp : env.vpNetOk = true) (htu : env.tuNetOk = true) (hzip : env.zipNetOk = true)
    (hbz : env.unzip = UnzipOutcome.badZip) :
    (fetch_and_process_data env fs ds).success = false ∧
    (fetch_and_process_data env fs ds).fs.zip_file = none ∧
    (fetch_and_process_data env fs ds).ds = ds ∧
    (∀ (env2 : Env) (ds2 : GTFSDataStore),
      env2.vpNetOk = true → env2.tuNetOk = true → env2.zipNetOk = true →
      (fetch_and_process_data env2 (fetch_and_process_data env fs ds).fs ds2).zip_retrieved
        = true) := by
  have h1 : (fetch_file fs.vp_file env.now 10 env.vpNetOk).2 ≠ FetchResult.failed := by
    rw [hvp]; exact fetch_file_true_not_failed _ _ _
  have h2 : (fetch_file fs.tu_file env.now 10 env.tuNetOk).2 ≠ FetchResult.failed := by
    rw [htu]; exact fetch_file_true_not_failed _ _ _
  have h3 : (fetch_file fs.zip_file env.now 86400 env.zipNetOk).2 ≠ FetchResult.failed := by
    rw [hzip]; exact fetch_file_true_not_failed _ _ _
  refine ⟨?_, ?_, ?_, ?_⟩
  · simp [fetch_and_process_data, h1, h2, h3, hbz]
  · simp [fetch_and_process_data, h1, h2, h3, hbz]
  · simp [fetch_and_process_data, h1, h2, h3, hbz]
  · intro env2 ds2 hv2 ht2 hz2
    have hzf : (fetch_and_process_data env fs ds).fs.zip_file = none := by
      simp [fetch_and_process_data, h1, h2, h3, hbz]
    have g1 : (fetch_file (fetch_and_process_data env fs ds).fs.vp_file env2.now 10
        env2.vpNetOk).2 ≠ FetchResult.failed := by
      rw [hv2]; exact fetch_file_true_not_failed _ _ _
    have g2 : (fetch_file (fetch_and_process_data env fs ds).fs.tu_file env2.now 10
        env2.tuNetOk).2 ≠ FetchResult.failed := by
      rw [ht2]; exact fetch_file_true_not_failed _ _ _
    have g3 : (fetch_file (fetch_and_process_data env fs ds).fs.zip_file env2.now 86400
        env2.zipNetOk).2 ≠ FetchResult.failed := by
      rw [hz2]; exact fetch_file_true_not_failed _ _ _
    rw [zip_retrieved_spec env2 _ ds2 g1 g2 g3, hzf, hz2]
    simp [fetch_file]

/-- Claim C8 witness: at the concrete corrupt-archive input the run fails
and the cached zip is gone. -/
theorem C8_witness :
    (fetch_and_process_data exEnvBadZip {} {}).success = false ∧
    (fetch_and_process_data exEnvBadZip {} {}).fs.zip_file = none := by
  have h := C8_bad_zip_cache_purged exEnvBadZip {} {} rfl rfl rfl rfl
  exact ⟨h.1, h.2.1⟩

/-- Claim C9: the stored vehicle list is only ever a complete fusion
output — a failed run leaves it exactly as it was, and a successful run
installs in one assignment the full fusion of the run's vehicle entities
with the run's freshly built delay, trip-to-shape and shape indexes. -/
theorem C9_vehicle_list_complete (env : Env) (fs : FsState) (ds : GTFSDataStore) :
    ((fetch_and_process_data env fs ds).success = false →
      (fetch_and_process_data env fs ds).ds.vehicle_positions = ds.vehicle_positions) ∧
    ((fetch_and_process_data env fs ds).success = true →
      ∃ shapeRows tripRows tsm vehicleEntities tripUpdateEntities,
        env.shapesCsv = .ok shapeRows ∧ env.tripsCsv = .ok tripRows ∧
        buildTripShapeMap tripRows = .ok tsm ∧
        env.vehicleFeed = .ok vehicleEntities ∧
        env.tripUpdateFeed = .ok tripUpdateEntities ∧
        (fetch_and_process_data env fs ds).ds.vehicle_positions
          = fuseVehicles (buildTripDelays tripUpdateEntities) tsm
              (sortShapes (buildShapesDict shapeRows)) vehicleEntities) := by
  by_cases h1 : (fetch_file fs.vp_file env.now 10 env.vpNetOk).2 = FetchResult.failed
  · simp [fetch_and_process_data, h1]
  · by_cases h2 : (fetch_file fs.tu_file env.now 10 env.tuNetOk).2 = FetchResult.failed
    · simp [fetch_and_process_data, h1, h2]
    · by_cases h3 : (fetch_file fs.zip_file env.now 86400 env.zipNetOk).2 = FetchResult.failed
      · simp [fetch_and_process_data, h1, h2, h3]
      · cases hz : env.unzip with
        | badZip => simp [fetch_and_process_data, h1, h2, h3, hz]
        | otherError => simp [fetch_and_process_data, h1, h2, h3, hz]
        | ok =>
          cases hsc : env.shapesCsv with
          | error u => simp [fetch_and_process_data, h1, h2, h3, hz, hsc]
          | ok shapeRows =>
            cases htc : env.tripsCsv with
            | error u => simp [fetch_and_process_data, h1, h2, h3, hz, hsc, htc]
            | ok tripRows =>
              cases hbm : buildTripShapeMap tripRows with
              | error u => simp [fetch_and_process_data, h1, h2, h3, hz, hsc, htc, hbm]
              | ok tsm =>
                cases hvf : env.vehicleFeed with
                | error u =>
                  simp [fetch_and_process_data, h1, h2, h3, hz, hsc, htc, hbm, hvf]
                | ok vehicleEntities =>
                  cases htuf : env.tripUpdateFeed with
                  | error u =>
                    simp [fetch_and_process_data, h1, h2, h3, hz, hsc, htc, hbm, hvf, htuf]
                  | ok tripUpdateEntities =>
                    refine ⟨?_, ?_⟩
                    · intro hfail
                      exfalso
                      simp [fetch_and_process_data, h1, h2, h3, hz, hsc, htc, hbm, hvf, htuf]
                        at hfail
                    · intro _
                      refine ⟨shapeRows, tripRows, tsm, vehicleEntities, tripUpdateEntities,
                        rfl, rfl, hbm, rfl, rfl, ?_⟩
                      simp [fetch_and_process_data, h1, h2, h3, hz, hsc, htc, hbm, hvf, htuf]

/-- Claim C9 witness: at the concrete feed-parse failure the stored vehicle
list is exactly the pre-run list. -/
theorem C9_witness :
    (fetch_and_process_data exEnvFeedFail {} {}).ds.vehicle_positions
      = ({} : GTFSDataStore).vehicle_positions :=
  (C9_vehicle_list_complete exEnvFeedFail {} {}).1 (by decide)

end BimbaGo
